import Mathlib

/-!
Shallow embedding of the jsss repository (archive/contents resolution and
dataset path layer) together with proofs about the claims of its
specification.

Source files embedded:
- src/jsss/fs.py                              (try_to_acquire_archive_contents)
- src/jsss/corpus.py                          (ItemIdJSSS, JSSS)
- src/jsss/PyTorch/dataset/waveform.py        (get_dataset_wave_path, JSSS_wave)
- src/jsss/PyTorch/dataset/spectrogram.py     (get_dataset_spec_path, JSSS_spec)
-/

/-- State of one filesystem location, as observed through the pathlib /
fsspec predicates used by the source (`exists`, `is_file`, `is_dir`,
`isfile`): the location is absent, a regular file, or a directory. -/
inductive PathKind
  | absent
  | file
  | dir
deriving DecidableEq

/-- The filesystem locations consulted by try_to_acquire_archive_contents
(fs.py lines 11-18): the state at `path_contents_local`, at
`path_archive_local`, and at the fsspec target of `adress_archive`. -/
structure AcquireWorld where
  contents : PathKind
  archive : PathKind
  remote : PathKind
deriving DecidableEq

/-- Externally visible side effects performed by
try_to_acquire_archive_contents, in the order they occur:
`extract` is a call of extract_archive, `remoteProbe` is the
fsspec existence/isfile probe of the archive address, `mkdirParents` is
the local mkdir(parents=True), `remoteGet` is fs.get_file (a network
download), `gdriveGet` is getGDriveLargeContents (a network download). -/
inductive Effect
  | extract
  | remoteProbe
  | mkdirParents
  | remoteGet
  | gdriveGet
deriving DecidableEq

/-- Python truthiness of the `adress_archive : Optional[str]` argument, as
tested by `if adress_archive:` at fs.py line 43: `None` and the empty
string are falsy, every other string is truthy. -/
def pyTruthyStrOpt : Option String → Bool
  | none => false
  | some s => !s.isEmpty

/-- Embeds try_to_acquire_archive_contents (fs.py lines 11-71).
The three path-state fields of `w` stand for the function's two local
path parameters and the fsspec view of its address parameter; `download`
and `gdrive_id` are the remaining parameters (`file_size_GB` is only
forwarded to the external Google-Drive primitive and is dropped).
The result is the Python return value or raised RuntimeError (messages
abridged), paired with the trace of side effects performed. -/
def try_to_acquire_archive_contents (w : AcquireWorld) (adress_archive : Option String)
    (download : Bool) (gdrive_id : Option String) :
    Except String Bool × List Effect :=
  if w.contents = PathKind.file then
    (Except.error "contents should be directory or empty, but it is file.", [])
  else if w.archive = PathKind.dir then
    (Except.error "archive should be file or empty, but it is directory.", [])
  else if w.contents ≠ PathKind.absent then
    (Except.ok true, [])
  else if w.archive ≠ PathKind.absent then
    (Except.ok true, [Effect.extract])
  else if pyTruthyStrOpt adress_archive then
    let archiveExists := w.remote ≠ PathKind.absent
    let archiveIsFile := w.remote = PathKind.file
    if archiveExists && !archiveIsFile then
      (Except.error "Archive should be file or empty, but it is directory.",
        [Effect.remoteProbe])
    else if archiveExists && download then
      (Except.ok true,
        [Effect.remoteProbe, Effect.mkdirParents, Effect.remoteGet, Effect.extract])
    else
      (Except.ok false, [Effect.remoteProbe])
  else
    if download then
      match gdrive_id with
      | none => (Except.error "grive_id should exist when adress_archive is None", [])
      | some _ => (Except.ok true, [Effect.gdriveGet, Effect.extract])
    else
      (Except.ok false, [])

/-- Python exception classes raised by the embedded code. -/
inductive PyErr
  | typeError (msg : String)
  | runtimeError (msg : String)
  | importError (msg : String)
  | attributeError (msg : String)
deriving DecidableEq

/-- Dynamically typed Python value, as far as the embedded call sites
need: a str, a pathlib.Path (carrying its string), a bool, None, or a
number. -/
inductive PyVal
  | vStr (s : String)
  | vPath (s : String)
  | vBool (b : Bool)
  | vNone
  | vNum (n : Nat)
deriving DecidableEq

/-- Python positional-argument binding against the signature of
try_to_acquire_archive_contents (fs.py lines 11-18): the def has six
parameters of which the first three (path_contents_local,
path_archive_local, adress_archive) have no default, and the last three
default to False, None and 0. A positional call binds exactly when it
passes between three and six arguments; otherwise Python raises
TypeError before the function body runs. -/
def bindTryAcquireArgs : List PyVal → Except PyErr (PyVal × PyVal × PyVal × PyVal × PyVal × PyVal)
  | [a, b, c] => Except.ok (a, b, c, PyVal.vBool false, PyVal.vNone, PyVal.vNum 0)
  | [a, b, c, d] => Except.ok (a, b, c, d, PyVal.vNone, PyVal.vNum 0)
  | [a, b, c, d, e] => Except.ok (a, b, c, d, e, PyVal.vNum 0)
  | [a, b, c, d, e, f] => Except.ok (a, b, c, d, e, f)
  | _ => Except.error (PyErr.typeError
      "try_to_acquire_archive_contents: wrong number of positional arguments")

/-- Embeds JSSS.get_contents (corpus.py lines 90-104). Its first
statement (line 94) calls try_to_acquire_archive_contents with exactly
two positional arguments, `self._adress` (a str) and
`self._path_contents_local` (a Path), in that order, against the
six-parameter signature of fs.py lines 11-18 whose first three
parameters have no default; Python therefore raises TypeError at the
call, before any acquisition logic runs, and the miss/retry logic of
lines 95-104 is unreachable (the `Except.ok` branch below can never be
taken because a two-element list never binds). -/
def JSSS.get_contents (adress : String) (path_contents_local : String)
    (download_origin : Bool) : Except PyErr Unit :=
  match bindTryAcquireArgs [PyVal.vStr adress, PyVal.vPath path_contents_local] with
  | Except.error e => Except.error e
  | Except.ok _ => Except.ok ()

/-- The list bound to the name `modes` at corpus.py lines 23-32:
the canonical subtype order of the corpus. -/
def modes : List String :=
  [ "short-form/basic5000",
    "short-form/onomatopee300",
    "short-form/voiceactress100",
    "long-form/katsura-masakazu",
    "long-form/udon",
    "long-form/washington-dc",
    "simplification",
    "summarization" ]

/-- Embeds the NamedTuple ItemIdJSSS (corpus.py lines 35-37): its two
fields are named `mode` and `serial_num`. -/
structure ItemIdJSSS where
  mode : String
  serial_num : Nat
deriving DecidableEq

/-- Python range(a, b) as the list [a, a+1, ..., b-1]. -/
def pyRange (a b : Nat) : List Nat := List.range' a (b - a)

/-- The `divs` dict of JSSS.get_identities (corpus.py lines 113-122):
per-subtype serial ranges (Python range objects). -/
def divs (m : String) : List Nat :=
  if m = "short-form/basic5000" then pyRange 1 3001
  else if m = "short-form/onomatopee300" then pyRange 1 186
  else if m = "short-form/voiceactress100" then pyRange 1 101
  else if m = "long-form/katsura-masakazu" then pyRange 1 60
  else if m = "long-form/udon" then pyRange 1 87
  else if m = "long-form/washington-dc" then pyRange 1 24
  else if m = "simplification" then pyRange 1 228
  else if m = "summarization" then pyRange 1 227
  else []

/-- Embeds JSSS.get_identities (corpus.py lines 106-127): for every
mode, in the order of `modes`, every serial number of `divs mode` is
appended as an ItemIdJSSS. -/
def JSSS.get_identities : List ItemIdJSSS :=
  (modes.map (fun m => (divs m).map (fun n => ItemIdJSSS.mk m n))).flatten

/-- The decimal digit character of a value below ten. -/
def digitChar : Nat → Char
  | 0 => '0'
  | 1 => '1'
  | 2 => '2'
  | 3 => '3'
  | 4 => '4'
  | 5 => '5'
  | 6 => '6'
  | 7 => '7'
  | 8 => '8'
  | _ => '9'

/-- Fuel-driven decimal rendering: with enough fuel this is the decimal
digit list of n, most significant digit first. -/
def natDigitsGo : Nat → Nat → List Char
  | 0, _ => []
  | fuel + 1, n =>
      if n < 10 then [digitChar n]
      else natDigitsGo fuel (n / 10) ++ [digitChar (n % 10)]

/-- Decimal digit list of a natural number, most significant digit
first: the character content of Python str(n) for a non-negative int
(n itself is always enough fuel, since n has at most n+1 digits). -/
def natDigits (n : Nat) : List Char := natDigitsGo (n + 1) n

/-- Python str(n) for a non-negative int n. -/
def pyStrNat (n : Nat) : String := String.mk (natDigits n)

/-- Character content of Python s.zfill(w) for a digit string: pad on
the left with zeros up to width w. -/
def zfillChars (w : Nat) (l : List Char) : List Char :=
  List.replicate (w - l.length) '0' ++ l

/-- Python s.zfill(w) for an unsigned digit string s. -/
def zfill (w : Nat) (s : String) : String := String.mk (zfillChars w s.data)

/-- Reads a digit list back as a natural number (base ten, leading
zeros ignored); used to invert natDigits and zfillChars. -/
def decodeDigits (l : List Char) : Nat :=
  l.foldl (fun a c => 10 * a + (c.toNat - 48)) 0

/-- The `name` dict of JSSS.get_item_path (corpus.py lines 138-171):
per-subtype filename prefix and zero-pad width; `none` for a key the
dict does not hold (Python would raise KeyError). -/
def item_name_table (m : String) : Option (String × Nat) :=
  if m = "short-form/basic5000" then some ("BASIC5000", 4)
  else if m = "short-form/onomatopee300" then some ("ONOMATOPEE300", 3)
  else if m = "short-form/voiceactress100" then some ("VOICEACTRESS100", 3)
  else if m = "long-form/katsura-masakazu" then some ("KATSURA-MASAKAZU", 2)
  else if m = "long-form/udon" then some ("UDON", 2)
  else if m = "long-form/washington-dc" then some ("WASHINGTON-DC", 2)
  else if m = "simplification" then some ("SIMPLIFICATION", 3)
  else if m = "summarization" then some ("SUMMARIZATION", 3)
  else none

/-- str(self._path_contents_local) of a JSSS instance (corpus.py lines
60-62): Path("./data/corpuses/JSSS/") / "contents". -/
def contents_root : String := "data/corpuses/JSSS/contents"

/-- self._corpus_name of a JSSS instance (corpus.py lines 56-58). -/
def corpus_name : String := "jsss_ver1"

/-- Embeds JSSS.get_item_path (corpus.py lines 129-176): the f-string
f"[root]/[corpus]/[mode]/wav24kHz16bit/[prefix]_[zero-padded serial].wav"
(braces of the f-string elided here), where prefix and pad width come
from the per-subtype table; `none` when the mode is not a key of the
table. -/
def JSSS.get_item_path (id : ItemIdJSSS) : Option String :=
  (item_name_table id.mode).map (fun pz =>
    contents_root ++ "/" ++ corpus_name ++ "/" ++ id.mode ++ "/wav24kHz16bit/" ++
      pz.1 ++ "_" ++ zfill pz.2 (pyStrNat id.serial_num) ++ ".wav")

/-- The shape of identity value the dataset path functions and datum
loaders of waveform.py / spectrogram.py require of their `id` argument
under Python duck typing: an object with attributes `subtype` and
`serial_num` (note ItemIdJSSS instead calls its first field `mode`). -/
structure DatasetItemId where
  subtype : String
  serial_num : Nat
deriving DecidableEq

/-- Embeds get_dataset_wave_path (waveform.py lines 22-23):
dir_dataset / id.subtype / "waves" / f"[serial].wave.pt", with pathlib
`/` rendered as string joining on "/" for relative components. -/
def get_dataset_wave_path (dir_dataset : String) (id : DatasetItemId) : String :=
  dir_dataset ++ "/" ++ id.subtype ++ "/waves/" ++ pyStrNat id.serial_num ++ ".wave.pt"

/-- Embeds get_dataset_spec_path (spectrogram.py lines 15-16):
dir_dataset / id.subtype / "specs" / f"[serial].spec.pt". -/
def get_dataset_spec_path (dir_dataset : String) (id : DatasetItemId) : String :=
  dir_dataset ++ "/" ++ id.subtype ++ "/specs/" ++ pyStrNat id.serial_num ++ ".spec.pt"

/-- Python list subscription l[n] for an int index: a non-negative
index counts from the front, a negative index counts from the back, and
any index outside [-len(l), len(l)) raises IndexError. -/
def pyListGet {α : Type} (l : List α) (n : Int) : Except PyErr α :=
  let i : Int := if n < 0 then n + l.length else n
  if h : 0 ≤ i ∧ i < l.length then
    Except.ok (l.get ⟨i.toNat, by omega⟩)
  else
    Except.error (PyErr.runtimeError "IndexError: list index out of range")

/-- The pure content of JSSS_wave._load_datum (waveform.py lines
117-119): the datum's label field f"[subtype]-[serial]". The waveform
tensor itself comes from torch.load, an external effect outside this
embedding; the datum is keyed by this label. -/
def JSSS_wave_load_datum (id : DatasetItemId) : String :=
  id.subtype ++ "-" ++ pyStrNat id.serial_num

/-- Embeds JSSS_wave.__len__ (waveform.py lines 128-129):
len(self._ids). -/
def JSSS_wave_len (ids : List DatasetItemId) : Nat := ids.length

/-- Embeds JSSS_wave.__getitem__ (waveform.py lines 121-126):
self._load_datum(self._ids[n]), with Python list indexing semantics. -/
def JSSS_wave_getitem (ids : List DatasetItemId) (n : Int) : Except PyErr String :=
  (pyListGet ids n).map JSSS_wave_load_datum

/-- The pure content of JSSS_spec._load_datum (spectrogram.py lines
118-126): the label f"[subtype]-[serial]" shared by the train and test
datum shapes (tensor fields are external torch.load effects). -/
def JSSS_spec_load_datum (id : DatasetItemId) : String :=
  id.subtype ++ "-" ++ pyStrNat id.serial_num

/-- Embeds JSSS_spec.__len__ (spectrogram.py lines 135-136). -/
def JSSS_spec_len (ids : List DatasetItemId) : Nat := ids.length

/-- Embeds JSSS_spec.__getitem__ (spectrogram.py lines 128-133). -/
def JSSS_spec_getitem (ids : List DatasetItemId) (n : Int) : Except PyErr String :=
  (pyListGet ids n).map JSSS_spec_load_datum

/-- Top-level names the module jsss.corpus defines (corpus.py lines
22-40): Mode, modes, ItemIdJSSS, JSSS. In particular no name Subtype is
defined. -/
def corpus_module_names : List String := ["Mode", "modes", "ItemIdJSSS", "JSSS"]

/-- The names waveform.py line 19 imports from jsss.corpus
(`from ...corpus import ItemIdJSSS, Subtype, JSSS`). -/
def waveform_corpus_import_names : List String := ["ItemIdJSSS", "Subtype", "JSSS"]

/-- The names spectrogram.py line 12 imports from jsss.corpus. -/
def spectrogram_corpus_import_names : List String := ["ItemIdJSSS", "Subtype", "JSSS"]

/-- The field names of the NamedTuple ItemIdJSSS (corpus.py lines
35-37). The dataset constructors filter with `id.subtype`
(waveform.py line 95, spectrogram.py line 95), an attribute this tuple
does not have. -/
def ItemIdJSSS_field_names : List String := ["mode", "serial_num"]

/-- Python from-import: every imported name must be a top-level name of
the source module, else ImportError is raised at module load. -/
def pyFromImportOk (exports imports : List String) : Bool :=
  imports.all (fun n => exports.contains n)

/-- Embeds the construction of a JSSS_wave dataset view: loading the
module waveform.py resolves `from ...corpus import ItemIdJSSS, Subtype,
JSSS` (line 19) against the names jsss.corpus defines; if that
succeeded, __init__ would filter identities with `id.subtype`
(line 95), an attribute lookup on ItemIdJSSS; only then would archive
resolution and generation run (lines 98-104, modelled as success). -/
def JSSS_wave_construct : Except PyErr Unit :=
  if !(pyFromImportOk corpus_module_names waveform_corpus_import_names) then
    Except.error (PyErr.importError "cannot import name Subtype from jsss.corpus")
  else if !(ItemIdJSSS_field_names.contains "subtype") then
    Except.error (PyErr.attributeError "ItemIdJSSS object has no attribute subtype")
  else Except.ok ()

/-- Embeds the construction of a JSSS_spec dataset view, which resolves
the same import (spectrogram.py line 12) and the same `id.subtype`
attribute access (spectrogram.py line 95). -/
def JSSS_spec_construct : Except PyErr Unit :=
  if !(pyFromImportOk corpus_module_names spectrogram_corpus_import_names) then
    Except.error (PyErr.importError "cannot import name Subtype from jsss.corpus")
  else if !(ItemIdJSSS_field_names.contains "subtype") then
    Except.error (PyErr.attributeError "ItemIdJSSS object has no attribute subtype")
  else Except.ok ()

/-- `ListLeads a b` states that a is a leading segment of b. -/
def ListLeads (a b : List Char) : Prop := ∃ t, a ++ t = b

/-- Boolean test for ListLeads. -/
def leadsB : List Char → List Char → Bool
  | [], _ => true
  | _ :: _, [] => false
  | x :: a, y :: b => x == y && leadsB a b

/-- True when no two distinct members of `modes` have their character
lists in the ListLeads relation (no subtype tag leads another). -/
def modesLeadCheck : Bool :=
  modes.all (fun m1 => modes.all (fun m2 => (m1 == m2) || !(leadsB m1.data m2.data)))

/-! ## Helper lemmas -/


theorem leadsB_iff (a b : List Char) : leadsB a b = true ↔ ListLeads a b := by
  induction a generalizing b with
  | nil => simp [leadsB, ListLeads]
  | cons x a ih =>
      cases b with
      | nil =>
          simp [leadsB, ListLeads]
      | cons y b =>
          simp only [leadsB, Bool.and_eq_true, beq_iff_eq, ih, ListLeads]
          constructor
          · rintro ⟨rfl, t, rfl⟩
            exact ⟨t, rfl⟩
          · rintro ⟨t, ht⟩
            injection ht with h1 h2
            exact ⟨h1, t, h2⟩

theorem leads_of_append_eq {a b c d : List Char} (h : a ++ c = b ++ d) :
    ListLeads a b ∨ ListLeads b a := by
  induction a generalizing b with
  | nil => exact Or.inl ⟨b, rfl⟩
  | cons x a ih =>
      cases b with
      | nil => exact Or.inr ⟨x :: a, rfl⟩
      | cons y b =>
          injection h with h1 h2
          rcases ih h2 with ⟨t, ht⟩ | ⟨t, ht⟩
          · exact Or.inl ⟨t, by rw [h1]; exact congrArg (y :: ·) ht⟩
          · exact Or.inr ⟨t, by rw [← h1]; exact congrArg (x :: ·) ht⟩

theorem modes_eq_of_leads {m1 m2 : String} (h1 : m1 ∈ modes) (h2 : m2 ∈ modes)
    (h : ListLeads m1.data m2.data) : m1 = m2 := by
  have hchk : modesLeadCheck = true := rfl
  rw [modesLeadCheck, List.all_eq_true] at hchk
  have := hchk m1 h1
  rw [List.all_eq_true] at this
  have := this m2 h2
  rcases Bool.or_eq_true _ _ |>.mp this with hb | hb
  · exact eq_of_beq hb
  · rw [Bool.not_eq_eq_eq_not, Bool.not_true] at hb
    rw [← leadsB_iff] at h
    rw [h] at hb
    cases hb

theorem mode_det {m1 m2 : String} (h1 : m1 ∈ modes) (h2 : m2 ∈ modes)
    {t1 t2 : List Char} (h : m1.data ++ t1 = m2.data ++ t2) : m1 = m2 := by
  rcases leads_of_append_eq h with hl | hl
  · exact modes_eq_of_leads h1 h2 hl
  · exact (modes_eq_of_leads h2 h1 hl).symm

theorem digitChar_toNat {d : Nat} (h : d < 10) : (digitChar d).toNat - 48 = d := by
  interval_cases d <;> rfl

theorem decodeDigits_append_digit (l : List Char) (c : Char) :
    decodeDigits (l ++ [c]) = 10 * decodeDigits l + (c.toNat - 48) := by
  simp [decodeDigits, List.foldl_append]

theorem decode_natDigitsGo : ∀ fuel n, n < 10 ^ fuel →
    decodeDigits (natDigitsGo fuel n) = n := by
  intro fuel
  induction fuel with
  | zero =>
      intro n hn
      simp only [pow_zero, Nat.lt_one_iff] at hn
      subst hn
      rfl
  | succ fuel ih =>
      intro n hn
      rw [natDigitsGo]
      by_cases h10 : n < 10
      · simp only [if_pos h10]
        simp [decodeDigits, digitChar_toNat h10]
      · simp only [if_neg h10]
        rw [decodeDigits_append_digit, ih (n / 10) ?_, digitChar_toNat (Nat.mod_lt _ (by omega))]
        · omega
        · rw [pow_succ] at hn
          omega

theorem decode_natDigits (n : Nat) : decodeDigits (natDigits n) = n := by
  apply decode_natDigitsGo
  calc n < 2 ^ (n + 1) := (Nat.lt_two_pow n).trans (Nat.pow_lt_pow_succ (by omega))
    _ ≤ 10 ^ (n + 1) := Nat.pow_le_pow_left (by omega) _

theorem foldl_zeros (k : Nat) :
    (List.replicate k '0').foldl (fun a c => 10 * a + (c.toNat - 48)) 0 = 0 := by
  induction k with
  | zero => rfl
  | succ k ih => simpa [List.replicate_succ, List.foldl_cons] using ih

theorem decode_zfillChars (w : Nat) (l : List Char) :
    decodeDigits (zfillChars w l) = decodeDigits l := by
  rw [zfillChars, decodeDigits, List.foldl_append, foldl_zeros, decodeDigits]

theorem zfill_natDigits_inj {w n m : Nat}
    (h : zfillChars w (natDigits n) = zfillChars w (natDigits m)) : n = m := by
  have := congrArg decodeDigits h
  rwa [decode_zfillChars, decode_zfillChars, decode_natDigits, decode_natDigits] at this

theorem natDigits_inj {n m : Nat} (h : natDigits n = natDigits m) : n = m := by
  have := congrArg decodeDigits h
  rwa [decode_natDigits, decode_natDigits] at this

theorem item_name_table_isSome {m : String} (hm : m ∈ modes) :
    ∃ p w, item_name_table m = some (p, w) := by
  fin_cases hm <;> exact ⟨_, _, rfl⟩

theorem get_item_path_inj {id1 id2 : ItemIdJSSS} (h1 : id1.mode ∈ modes)
    (h2 : id2.mode ∈ modes) (h : JSSS.get_item_path id1 = JSSS.get_item_path id2) :
    id1 = id2 := by
  obtain ⟨m1, n1⟩ := id1
  obtain ⟨m2, n2⟩ := id2
  simp only at h1 h2
  obtain ⟨p1, w1, hpw1⟩ := item_name_table_isSome h1
  obtain ⟨p2, w2, hpw2⟩ := item_name_table_isSome h2
  simp only [JSSS.get_item_path, hpw1, hpw2, Option.map_some', Option.some.injEq] at h
  have hd := congrArg String.data h
  simp only [String.data_append, List.append_assoc] at hd
  have hd := List.append_cancel_left hd
  have hd := List.append_cancel_left hd
  have hd := List.append_cancel_left hd
  have hd := List.append_cancel_left hd
  have hmode : m1 = m2 := mode_det h1 h2 hd
  subst hmode
  have hw : p1 = p2 ∧ w1 = w2 := by
    rw [hpw1] at hpw2
    injection hpw2 with hp
    injection hp with ha hb
    exact ⟨ha, hb⟩
  obtain ⟨rfl, rfl⟩ := hw
  have hd := List.append_cancel_left hd
  have hd := List.append_cancel_left hd
  have hd := List.append_cancel_left hd
  have hd := List.append_cancel_left hd
  simp only [zfill, pyStrNat] at hd
  have hz := List.append_cancel_right hd
  have := zfill_natDigits_inj hz
  subst this
  rfl

theorem get_dataset_wave_path_inj {dir : String} {id1 id2 : DatasetItemId}
    (h1 : id1.subtype ∈ modes) (h2 : id2.subtype ∈ modes)
    (h : get_dataset_wave_path dir id1 = get_dataset_wave_path dir id2) : id1 = id2 := by
  obtain ⟨m1, n1⟩ := id1
  obtain ⟨m2, n2⟩ := id2
  simp only at h1 h2
  simp only [get_dataset_wave_path] at h
  have hd := congrArg String.data h
  simp only [String.data_append, List.append_assoc] at hd
  have hd := List.append_cancel_left hd
  have hd := List.append_cancel_left hd
  have hmode : m1 = m2 := mode_det h1 h2 hd
  subst hmode
  have hd := List.append_cancel_left hd
  have hd := List.append_cancel_left hd
  simp only [pyStrNat] at hd
  have := natDigits_inj (List.append_cancel_right hd)
  subst this
  rfl

theorem get_dataset_spec_path_inj {dir : String} {id1 id2 : DatasetItemId}
    (h1 : id1.subtype ∈ modes) (h2 : id2.subtype ∈ modes)
    (h : get_dataset_spec_path dir id1 = get_dataset_spec_path dir id2) : id1 = id2 := by
  obtain ⟨m1, n1⟩ := id1
  obtain ⟨m2, n2⟩ := id2
  simp only at h1 h2
  simp only [get_dataset_spec_path] at h
  have hd := congrArg String.data h
  simp only [String.data_append, List.append_assoc] at hd
  have hd := List.append_cancel_left hd
  have hd := List.append_cancel_left hd
  have hmode : m1 = m2 := mode_det h1 h2 hd
  subst hmode
  have hd := List.append_cancel_left hd
  have hd := List.append_cancel_left hd
  simp only [pyStrNat] at hd
  have := natDigits_inj (List.append_cancel_right hd)
  subst this
  rfl

/-! ## Claim theorems -/

/-- C1 counterexample: an input whose contents-tree path exists as a
directory but whose local archive path is a directory as well makes
try_to_acquire_archive_contents raise RuntimeError at its validation
block instead of returning True, so the claim's first branch does not
hold for every such input. -/
theorem C1_contents_dir_counterexample :
    (AcquireWorld.mk PathKind.dir PathKind.dir PathKind.absent).contents = PathKind.dir ∧
    (try_to_acquire_archive_contents
        (AcquireWorld.mk PathKind.dir PathKind.dir PathKind.absent) none false none).1 =
      Except.error "archive should be file or empty, but it is directory." ∧
    ∀ b : Bool,
      (try_to_acquire_archive_contents
          (AcquireWorld.mk PathKind.dir PathKind.dir PathKind.absent) none false none).1 ≠
        Except.ok b :=
  ⟨rfl, rfl, fun _ h => Except.noConfusion h⟩

/-- C1 (amended): provided the local archive path is not a directory,
try_to_acquire_archive_contents attempts its sources strictly in
priority order with a short-circuit on the first success: when the
contents tree exists as a directory it returns True with no side effect
at all (no extraction, no download, no remote probe); when the contents
path does not exist and the local archive path is a file it extracts
that archive and returns True with no network effect; and the remote
address is probed only when neither local path exists and an address is
configured. -/
theorem C1_priority_order (w : AcquireWorld) (a : Option String) (d : Bool)
    (g : Option String) (harch : w.archive ≠ PathKind.dir) :
    (w.contents = PathKind.dir →
      try_to_acquire_archive_contents w a d g = (Except.ok true, [])) ∧
    (w.contents = PathKind.absent → w.archive = PathKind.file →
      try_to_acquire_archive_contents w a d g = (Except.ok true, [Effect.extract])) ∧
    (Effect.remoteProbe ∈ (try_to_acquire_archive_contents w a d g).2 →
      w.contents = PathKind.absent ∧ w.archive = PathKind.absent ∧
        pyTruthyStrOpt a = true) := by
  obtain ⟨c, ar, r⟩ := w
  simp only at harch
  cases hpa : pyTruthyStrOpt a <;> cases d <;> cases g <;>
    cases c <;> cases ar <;> cases r <;>
      simp_all [try_to_acquire_archive_contents]

/-- C1 witness: at a concrete input with an existing contents directory
the function returns True with an empty effect trace. -/
theorem C1_priority_order_witness :
    try_to_acquire_archive_contents
        (AcquireWorld.mk PathKind.dir PathKind.absent PathKind.absent) none false none =
      (Except.ok true, []) :=
  (C1_priority_order (AcquireWorld.mk PathKind.dir PathKind.absent PathKind.absent)
    none false none (by decide)).1 rfl

/-- C2 counterexample: when the contents tree already exists as a
directory, a remote archive address whose target exists and is a
directory does not make the function raise: the remote state is never
probed and the call returns True. This contradicts the claim that the
malformed remote state fails fast before any acquisition attempt. -/
theorem C2_remote_dir_counterexample :
    (AcquireWorld.mk PathKind.dir PathKind.absent PathKind.dir).remote = PathKind.dir ∧
    pyTruthyStrOpt (some "s3://bucket/jsss.zip") = true ∧
    try_to_acquire_archive_contents
        (AcquireWorld.mk PathKind.dir PathKind.absent PathKind.dir)
        (some "s3://bucket/jsss.zip") true none =
      (Except.ok true, []) :=
  ⟨rfl, rfl, rfl⟩

/-- C2 (amended): the two local malformed-path cases fail fast at the
validation block before any acquisition attempt (contents path is a
regular file; or local archive path is a directory), and the malformed
remote case (address target exists but is not a file) raises only when
it is reached, namely when neither local contents nor local archive
exist and an address is configured: then the probe happens and the
error is raised before any download or extraction. -/
theorem C2_fail_fast (w : AcquireWorld) (a : Option String) (d : Bool)
    (g : Option String) :
    (w.contents = PathKind.file →
      try_to_acquire_archive_contents w a d g =
        (Except.error "contents should be directory or empty, but it is file.", [])) ∧
    (w.contents ≠ PathKind.file → w.archive = PathKind.dir →
      try_to_acquire_archive_contents w a d g =
        (Except.error "archive should be file or empty, but it is directory.", [])) ∧
    (w.contents = PathKind.absent → w.archive = PathKind.absent →
      pyTruthyStrOpt a = true → w.remote = PathKind.dir →
      try_to_acquire_archive_contents w a d g =
        (Except.error "Archive should be file or empty, but it is directory.",
          [Effect.remoteProbe])) := by
  obtain ⟨c, ar, r⟩ := w
  cases hpa : pyTruthyStrOpt a <;> cases d <;> cases g <;>
    cases c <;> cases ar <;> cases r <;>
      simp_all [try_to_acquire_archive_contents]

/-- C2 witness: a contents path that is a regular file raises the
InvalidLocalState error at a concrete input. -/
theorem C2_fail_fast_witness :
    try_to_acquire_archive_contents
        (AcquireWorld.mk PathKind.file PathKind.absent PathKind.absent) none false none =
      (Except.error "contents should be directory or empty, but it is file.", []) :=
  (C2_fail_fast (AcquireWorld.mk PathKind.file PathKind.absent PathKind.absent)
    none false none).1 rfl

/-- C3: when no local contents tree and no local archive exist and the
configured remote address either does not exist, or exists as a file
while download is not granted, try_to_acquire_archive_contents returns
False after the remote probe, raising no error. -/
theorem C3_miss_is_not_error (w : AcquireWorld) (a : Option String) (d : Bool)
    (g : Option String) (hc : w.contents = PathKind.absent)
    (ha : w.archive = PathKind.absent) (hconf : pyTruthyStrOpt a = true)
    (hmiss : w.remote = PathKind.absent ∨ (w.remote = PathKind.file ∧ d = false)) :
    try_to_acquire_archive_contents w a d g = (Except.ok false, [Effect.remoteProbe]) := by
  obtain ⟨c, ar, r⟩ := w
  simp only at hc ha hmiss
  subst hc ha
  rcases hmiss with hr | ⟨hr, hd⟩ <;> subst hr <;>
    simp_all [try_to_acquire_archive_contents]

/-- C3 witness: concrete miss, remote absent. -/
theorem C3_miss_is_not_error_witness :
    try_to_acquire_archive_contents
        (AcquireWorld.mk PathKind.absent PathKind.absent PathKind.absent)
        (some "s3://bucket/jsss.zip") true none =
      (Except.ok false, [Effect.remoteProbe]) :=
  C3_miss_is_not_error
    (AcquireWorld.mk PathKind.absent PathKind.absent PathKind.absent)
    (some "s3://bucket/jsss.zip") true none rfl rfl rfl (Or.inl rfl)

/-- C4: evaluation at the failing input. With the default corpus archive
address, an existing download_origin grant and any filesystem state,
JSSS.get_contents raises TypeError at its very first call (two
positional arguments against three required parameters), so the origin
fetch, the single retry and the actionable failure message of
corpus.py lines 95-104 are never reached. -/
theorem C4_get_contents_raises_before_retry :
    JSSS.get_contents "./data/corpuses/JSSS/archive/jsss_ver1.zip"
        "data/corpuses/JSSS/contents" true =
      Except.error (PyErr.typeError
        "try_to_acquire_archive_contents: wrong number of positional arguments") := rfl

/-- C9: for every corpus address, contents path and download_origin
flag, JSSS.get_contents fails with TypeError before any acquisition
logic runs, because corpus.py line 94 passes two positional arguments
to try_to_acquire_archive_contents whose signature requires three. -/
theorem C9_get_contents_never_succeeds (adress path_contents : String)
    (download_origin : Bool) :
    JSSS.get_contents adress path_contents download_origin =
      Except.error (PyErr.typeError
        "try_to_acquire_archive_contents: wrong number of positional arguments") := rfl

/-- C5 counterexample: the enumeration length equals the plain sum of
the per-subtype range sizes with nothing subtracted, and serial 77 of a
subtype whose range covers it (long-form/udon, range 1..86) is present;
the catalog has no per-subtype exclusion sets at all, contradicting the
claim that documented known-missing serials (one subtype missing serial
77, another missing 43 specific serials) are omitted from within the
ranges. -/
theorem C5_no_exclusions_counterexample :
    JSSS.get_identities.length = 3000 + 185 + 100 + 59 + 86 + 23 + 227 + 226 ∧
    ItemIdJSSS.mk "long-form/udon" 77 ∈ JSSS.get_identities := by
  constructor
  · simp [JSSS.get_identities, modes, divs, pyRange]
  · refine List.mem_flatten.mpr ⟨_, List.mem_map.mpr ⟨"long-form/udon", by decide, rfl⟩, ?_⟩
    refine List.mem_map.mpr ⟨77, ?_, rfl⟩
    simp only [divs, pyRange]
    norm_num
    exact List.mem_range'.mpr ⟨76, by omega, by omega⟩

/-- C5 (amended): JSSS.get_identities enumerates, for each subtype in
the fixed canonical order, every serial of that subtype's contiguous
range with no exclusion set (known-missing items are encoded only by
the truncated range endpoints), and its length is the plain sum of the
per-subtype range sizes, 3906. -/
theorem C5_catalog_characterization :
    JSSS.get_identities.length = 3906 ∧
    ∀ id : ItemIdJSSS,
      id ∈ JSSS.get_identities ↔ (id.mode ∈ modes ∧ id.serial_num ∈ divs id.mode) := by
  constructor
  · simp [JSSS.get_identities, modes, divs, pyRange]
  · intro id
    constructor
    · intro hmem
      obtain ⟨l, hl, hid⟩ := List.mem_flatten.mp hmem
      obtain ⟨m, hm, rfl⟩ := List.mem_map.mp hl
      obtain ⟨n, hn, rfl⟩ := List.mem_map.mp hid
      exact ⟨hm, hn⟩
    · rintro ⟨hm, hn⟩
      exact List.mem_flatten.mpr
        ⟨_, List.mem_map.mpr ⟨id.mode, hm, rfl⟩, List.mem_map.mpr ⟨id.serial_num, hn, rfl⟩⟩

/-- C10: the dataset views can never be constructed against the corpus
module of this repository: Subtype is not among the names jsss.corpus
defines, subtype is not a field of ItemIdJSSS, and both the JSSS_wave
and the JSSS_spec construction fail with ImportError at module load,
before any archive resolution or generation. -/
theorem C10_dataset_views_unconstructible :
    "Subtype" ∉ corpus_module_names ∧
    "subtype" ∉ ItemIdJSSS_field_names ∧
    JSSS_wave_construct =
      Except.error (PyErr.importError "cannot import name Subtype from jsss.corpus") ∧
    JSSS_spec_construct =
      Except.error (PyErr.importError "cannot import name Subtype from jsss.corpus") :=
  ⟨by decide, by decide, rfl, rfl⟩

/-- C6: path resolution is injective. Two identities with subtype tags
among the corpus modes that resolve to the same raw corpus path are
equal, and likewise for the derived waveform and spectrogram dataset
paths under one common dataset contents root. -/
theorem C6_path_resolution_injective :
    (∀ id1 id2 : ItemIdJSSS, id1.mode ∈ modes → id2.mode ∈ modes →
        JSSS.get_item_path id1 = JSSS.get_item_path id2 → id1 = id2) ∧
    (∀ (dir : String) (id1 id2 : DatasetItemId),
        id1.subtype ∈ modes → id2.subtype ∈ modes →
        get_dataset_wave_path dir id1 = get_dataset_wave_path dir id2 → id1 = id2) ∧
    (∀ (dir : String) (id1 id2 : DatasetItemId),
        id1.subtype ∈ modes → id2.subtype ∈ modes →
        get_dataset_spec_path dir id1 = get_dataset_spec_path dir id2 → id1 = id2) :=
  ⟨fun _ _ h1 h2 h => get_item_path_inj h1 h2 h,
   fun _ _ _ h1 h2 h => get_dataset_wave_path_inj h1 h2 h,
   fun _ _ _ h1 h2 h => get_dataset_spec_path_inj h1 h2 h⟩

/-- C6 witness: the three injectivity statements applied at concrete
identities with their hypotheses discharged by evaluation. -/
theorem C6_path_resolution_injective_witness :
    ItemIdJSSS.mk "short-form/basic5000" 42 = ItemIdJSSS.mk "short-form/basic5000" 42 ∧
    DatasetItemId.mk "long-form/udon" 7 = DatasetItemId.mk "long-form/udon" 7 ∧
    DatasetItemId.mk "summarization" 9 = DatasetItemId.mk "summarization" 9 :=
  ⟨C6_path_resolution_injective.1 _ _ (by decide) (by decide) rfl,
   C6_path_resolution_injective.2.1 "tmp/JSSS_wave/contents/k" _ _
     (by decide) (by decide) rfl,
   C6_path_resolution_injective.2.2 "tmp/JSSS_spec/contents/k" _ _
     (by decide) (by decide) rfl⟩

/-- C7 counterexample: the static table gives subtype
short-form/basic5000 the pad width 4, yet the waveform and spectrogram
dataset paths for serial 1 of that subtype render the serial as the
unpadded digit 1, not as the zero-padded 0001 the claim requires. -/
theorem C7_unpadded_counterexample :
    item_name_table "short-form/basic5000" = some ("BASIC5000", 4) ∧
    get_dataset_wave_path "tmp/JSSS_wave/contents/k"
        (DatasetItemId.mk "short-form/basic5000" 1) =
      "tmp/JSSS_wave/contents/k/short-form/basic5000/waves/1.wave.pt" ∧
    get_dataset_spec_path "tmp/JSSS_spec/contents/k"
        (DatasetItemId.mk "short-form/basic5000" 1) =
      "tmp/JSSS_spec/contents/k/short-form/basic5000/specs/1.spec.pt" ∧
    zfill 4 (pyStrNat 1) = "0001" ∧
    get_dataset_wave_path "tmp/JSSS_wave/contents/k"
        (DatasetItemId.mk "short-form/basic5000" 1) ≠
      "tmp/JSSS_wave/contents/k/short-form/basic5000/waves/0001.wave.pt" :=
  ⟨rfl, rfl, rfl, rfl, by decide⟩

/-- C7 (amended): the dataset path functions render the serial number
as its plain unpadded decimal form; whenever the decimal form is
shorter than the subtype's pad width from the static table, this
differs from the zero-padded rendering the raw corpus paths use. -/
theorem C7_dataset_serial_unpadded (dir : String) (id : DatasetItemId)
    (p : String) (w : Nat) (ht : item_name_table id.subtype = some (p, w))
    (hlen : (pyStrNat id.serial_num).length < w) :
    get_dataset_wave_path dir id =
      dir ++ "/" ++ id.subtype ++ "/waves/" ++ pyStrNat id.serial_num ++ ".wave.pt" ∧
    get_dataset_spec_path dir id =
      dir ++ "/" ++ id.subtype ++ "/specs/" ++ pyStrNat id.serial_num ++ ".spec.pt" ∧
    pyStrNat id.serial_num ≠ zfill w (pyStrNat id.serial_num) := by
  refine ⟨rfl, rfl, ?_⟩
  intro hcontra
  have hlen2 := congrArg String.length hcontra
  rw [pyStrNat, String.length_mk, zfill, zfillChars, String.length_mk,
    List.length_append, List.length_replicate] at hlen2
  rw [pyStrNat, String.length_mk] at hlen
  omega

/-- C7 witness: at subtype short-form/basic5000 (pad width 4) and
serial 7 the amended statement holds with all hypotheses evaluated. -/
theorem C7_dataset_serial_unpadded_witness :
    get_dataset_wave_path "tmp" (DatasetItemId.mk "short-form/basic5000" 7) =
      "tmp" ++ "/" ++ "short-form/basic5000" ++ "/waves/" ++ pyStrNat 7 ++ ".wave.pt" ∧
    get_dataset_spec_path "tmp" (DatasetItemId.mk "short-form/basic5000" 7) =
      "tmp" ++ "/" ++ "short-form/basic5000" ++ "/specs/" ++ pyStrNat 7 ++ ".spec.pt" ∧
    pyStrNat 7 ≠ zfill 4 (pyStrNat 7) :=
  C7_dataset_serial_unpadded "tmp" (DatasetItemId.mk "short-form/basic5000" 7)
    "BASIC5000" 4 rfl (by decide)

/-- Behaviour of Python list subscription for a front index. -/
theorem pyListGet_nonneg {α : Type} (l : List α) (n : Int) (h0 : 0 ≤ n)
    (h : n.toNat < l.length) : pyListGet l n = Except.ok (l.get ⟨n.toNat, h⟩) := by
  have hn0 : ¬ n < 0 := by omega
  have hcond : 0 ≤ n ∧ n < (l.length : Int) := ⟨h0, by omega⟩
  simp only [pyListGet, if_neg hn0, dif_pos hcond]

/-- Behaviour of Python list subscription for an in-range back index. -/
theorem pyListGet_neg {α : Type} (l : List α) (n : Int) (h0 : n < 0)
    (hge : -(l.length : Int) ≤ n) (h : (n + l.length).toNat < l.length) :
    pyListGet l n = Except.ok (l.get ⟨(n + l.length).toNat, h⟩) := by
  have hcond : 0 ≤ n + (l.length : Int) ∧ n + (l.length : Int) < (l.length : Int) := by omega
  simp only [pyListGet, if_pos h0, dif_pos hcond]

/-- Behaviour of Python list subscription for an out-of-range index. -/
theorem pyListGet_oob {α : Type} (l : List α) (n : Int)
    (h : n < -(l.length : Int) ∨ (l.length : Int) ≤ n) :
    pyListGet l n = Except.error (PyErr.runtimeError "IndexError: list index out of range") := by
  rcases h with h | h
  · have h0 : n < 0 := by omega
    have hcond : ¬ (0 ≤ n + (l.length : Int) ∧ n + (l.length : Int) < (l.length : Int)) := by
      omega
    simp only [pyListGet, if_pos h0, dif_neg hcond]
  · have h0 : ¬ n < 0 := by omega
    have hcond : ¬ (0 ≤ n ∧ n < (l.length : Int)) := by omega
    simp only [pyListGet, if_neg h0, dif_neg hcond]

/-- C8 counterexample: on a two-element identity list the index -1 is
outside 0 <= n < length, yet both dataset views return the last datum
instead of failing with an index error (Python negative indexing). -/
theorem C8_negative_index_counterexample :
    JSSS_wave_getitem
        [DatasetItemId.mk "short-form/basic5000" 1, DatasetItemId.mk "short-form/basic5000" 2]
        (-1) = Except.ok "short-form/basic5000-2" ∧
    JSSS_spec_getitem
        [DatasetItemId.mk "short-form/basic5000" 1, DatasetItemId.mk "short-form/basic5000" 2]
        (-1) = Except.ok "short-form/basic5000-2" :=
  ⟨rfl, rfl⟩

/-- C8 (amended): the dataset views are fixed-length indexed
collections: their length is the number of stored identities, get(n)
returns the datum of the n-th identity for 0 <= n < length, get(n) for
-length <= n < 0 returns the datum of the (length+n)-th identity
(Python negative indexing), and every other integer index fails with
IndexError. -/
theorem C8_indexing (ids : List DatasetItemId) (n : Int) :
    JSSS_wave_len ids = ids.length ∧
    JSSS_spec_len ids = ids.length ∧
    (∀ d : DatasetItemId, 0 ≤ n → ids[n.toNat]? = some d →
        JSSS_wave_getitem ids n = Except.ok (JSSS_wave_load_datum d) ∧
        JSSS_spec_getitem ids n = Except.ok (JSSS_spec_load_datum d)) ∧
    (∀ d : DatasetItemId, n < 0 → -(ids.length : Int) ≤ n →
        ids[(n + ids.length).toNat]? = some d →
        JSSS_wave_getitem ids n = Except.ok (JSSS_wave_load_datum d) ∧
        JSSS_spec_getitem ids n = Except.ok (JSSS_spec_load_datum d)) ∧
    ((n < -(ids.length : Int) ∨ (ids.length : Int) ≤ n) →
        JSSS_wave_getitem ids n =
          Except.error (PyErr.runtimeError "IndexError: list index out of range") ∧
        JSSS_spec_getitem ids n =
          Except.error (PyErr.runtimeError "IndexError: list index out of range")) := by
  refine ⟨rfl, rfl, ?_, ?_, ?_⟩
  · intro d h0 hd
    rw [List.getElem?_eq_some] at hd
    obtain ⟨hlt, hval⟩ := hd
    rw [JSSS_wave_getitem, JSSS_spec_getitem, pyListGet_nonneg ids n h0 hlt]
    constructor <;> simp [Except.map, List.get_eq_getElem, hval]
  · intro d h0 hge hd
    rw [List.getElem?_eq_some] at hd
    obtain ⟨hlt, hval⟩ := hd
    rw [JSSS_wave_getitem, JSSS_spec_getitem, pyListGet_neg ids n h0 hge hlt]
    constructor <;> simp [Except.map, List.get_eq_getElem, hval]
  · intro h
    rw [JSSS_wave_getitem, JSSS_spec_getitem, pyListGet_oob ids n h]
    exact ⟨rfl, rfl⟩

/-- C8 witness: the amended statement applied on a concrete singleton
view at index 0. -/
theorem C8_indexing_witness :
    JSSS_wave_getitem [DatasetItemId.mk "short-form/basic5000" 1] 0 =
      Except.ok (JSSS_wave_load_datum (DatasetItemId.mk "short-form/basic5000" 1)) ∧
    JSSS_spec_getitem [DatasetItemId.mk "short-form/basic5000" 1] 0 =
      Except.ok (JSSS_spec_load_datum (DatasetItemId.mk "short-form/basic5000" 1)) :=
  (C8_indexing [DatasetItemId.mk "short-form/basic5000" 1] 0).2.2.1
    (DatasetItemId.mk "short-form/basic5000" 1) (by decide) rfl
